import Mathlib

/-!
Verification development for the quantix-analytics COA engine and UI logic.

The repository's type declarations (Cannabinoid, COAData, validation result
types) are embedded directly from the TypeScript source; numeric values are
modelled as rationals.  The core calculation and validation functions
(Result Classifier, Potency Aggregator, Measurement Generator, Validation
Engine) are declared in the repository only through their input and output
types; their bodies are modelled from the specification, and each such
definition is marked `Modelled from the spec:` in its doc comment.
The storage-page selection and filtering logic and the Supabase client
singletons are embedded from their source files.
-/

/-- Embedded from the source union type CannabinoidResult:
detected, ND, below LOQ, Complete, Not Submitted, Not Tested. -/
inductive CannabinoidResult where
  | detected
  | ND
  | belowLOQ
  | complete
  | notSubmitted
  | notTested
deriving DecidableEq, Repr

/-- Embedded from the source interface Cannabinoid: one analyte measurement. -/
structure Cannabinoid where
  name : String
  percentWeight : ℚ
  mgPerG : ℚ
  loq : ℚ
  lod : ℚ
  result : CannabinoidResult
deriving DecidableEq, Repr

/-- Embedded from the source union type ProductType. -/
inductive ProductType where
  | flower
  | concentrate
  | vaporizer
  | disposable
  | edible
  | beverage
  | gummy
deriving DecidableEq, Repr

/-- Embedded from the source union type CannabinoidProfile. -/
inductive CannabinoidProfile where
  | highThc
  | mediumThc
  | lowThc
  | hemp
  | decarbed
  | disposableVape
  | concentrate
  | gummy
deriving DecidableEq, Repr

/-- Embedded from the source interface CustomRanges. -/
structure CustomRanges where
  thcaMin : ℚ
  thcaMax : ℚ
  d9thcMin : ℚ
  d9thcMax : ℚ
deriving DecidableEq, Repr

/-- Embedded from the source interface COAData: the full report record.
Strings model TypeScript strings, rationals model its numbers, `Option`
models optional and nullable fields. -/
structure COAData where
  labName : String
  labContact : String
  labDirector : String
  directorTitle : String
  approvalDate : String
  sampleName : String
  sampleId : String
  strain : String
  batchId : String
  sampleSize : String
  sampleType : String
  methodReference : String
  clientName : String
  clientAddress : Option String
  licenseNumber : Option String
  storeId : Option String
  dateCollected : String
  dateReceived : String
  dateTested : String
  dateTestedEnd : Option String
  dateReported : String
  testsBatch : Bool
  testsCannabinoids : Bool
  testsMoisture : Bool
  testsHeavyMetals : Bool
  testsPesticides : Bool
  testsMicrobials : Bool
  cannabinoids : List Cannabinoid
  totalTHC : ℚ
  totalCBD : ℚ
  totalCannabinoids : ℚ
  edibleDosage : Option ℚ
  edibleWeight : Option ℚ
  moisture : Option ℚ
  notes : String
  qrCodeDataUrl : Option String
  publicUrl : Option String
  includeImage : Option Bool
  productImageUrl : Option String
  vendorId : Option String
deriving DecidableEq, Repr

/-- Embedded from the source interface CannabinoidProfileResult:
output of the Measurement Generator / Potency Aggregator. -/
structure CannabinoidProfileResult where
  cannabinoids : List Cannabinoid
  totalTHC : ℚ
  totalCBD : ℚ
  totalCannabinoids : ℚ
deriving DecidableEq, Repr

/-- Modelled from the spec: the Result Classifier (spec section 4.1).
quantity < LOD gives not-detected; LOD ≤ quantity < LOQ gives
below-quantitation; quantity ≥ LOQ gives detected.  The implementation
file is absent from the sources; only the CannabinoidResult type is
declared there. -/
def classifyResult (quantity lod loq : ℚ) : CannabinoidResult :=
  if quantity < lod then CannabinoidResult.ND
  else if quantity < loq then CannabinoidResult.belowLOQ
  else CannabinoidResult.detected

/-- Modelled from the spec: the quantity the aggregator reads for a named
analyte is the percent-by-weight of the first list entry with that name,
and 0 when the analyte is absent from the list. -/
def quantityOf (cannabinoids : List Cannabinoid) (n : String) : ℚ :=
  match cannabinoids.find? (fun c => c.name == n) with
  | some c => c.percentWeight
  | none => 0

/-- The decarboxylation mass-correction factor 0.877 (spec glossary). -/
def DECARB_FACTOR : ℚ := 877 / 1000

/-- Modelled from the spec: aggregator total THC =
D9-THC quantity + 0.877 × THCA quantity (spec section 4.2). -/
def calcTotalTHC (cannabinoids : List Cannabinoid) : ℚ :=
  quantityOf cannabinoids "D9-THC" + DECARB_FACTOR * quantityOf cannabinoids "THCA"

/-- Modelled from the spec: aggregator total CBD =
CBD quantity + 0.877 × CBDA quantity (spec section 4.2). -/
def calcTotalCBD (cannabinoids : List Cannabinoid) : ℚ :=
  quantityOf cannabinoids "CBD" + DECARB_FACTOR * quantityOf cannabinoids "CBDA"

/-- Modelled from the spec: contribution of one analyte to the
total-of-all-analytes sum.  Not-detected contributes 0; for the
below-quantitation policy value the spec leaves the constant open and this
model fixes it at 0 (spec sections 4.2 and 9). -/
def contribution (c : Cannabinoid) : ℚ :=
  match c.result with
  | CannabinoidResult.ND => 0
  | CannabinoidResult.belowLOQ => 0
  | _ => c.percentWeight

/-- Modelled from the spec: total of all analytes (spec section 4.2). -/
def calcTotalCannabinoids (cannabinoids : List Cannabinoid) : ℚ :=
  (cannabinoids.map contribution).sum

/-- Modelled from the spec: the Potency Aggregator assembles the derived
totals from the analyte list (spec section 4.2). -/
def aggregate (cannabinoids : List Cannabinoid) : CannabinoidProfileResult :=
  { cannabinoids := cannabinoids
    totalTHC := calcTotalTHC cannabinoids
    totalCBD := calcTotalCBD cannabinoids
    totalCannabinoids := calcTotalCannabinoids cannabinoids }

/-- A 32-bit linear congruential step: the deterministic random source the
Measurement Generator threads through its draws (spec section 9 requires an
explicit seed). -/
def lcgNext (s : Nat) : Nat := (1664525 * s + 1013904223) % 4294967296

/-- Modelled from the spec: one bounded draw of the Measurement Generator.
Returns a value in [lo, hi] (for lo ≤ hi) together with the advanced
generator state. -/
def randInRange (s : Nat) (lo hi : ℚ) : ℚ × Nat :=
  let s2 := lcgNext s
  (lo + (hi - lo) * ((s2 % 10001 : ℕ) : ℚ) / 10000, s2)

/-- Modelled from the spec: default THCA / D9-THC ranges per profile
variant (spec section 3, profile configuration).  The exact numeric bounds
are not in the sources; representative bounds are fixed here. -/
def profileRanges : CannabinoidProfile → CustomRanges
  | CannabinoidProfile.highThc => ⟨22, 30, 1/2, 3/2⟩
  | CannabinoidProfile.mediumThc => ⟨15, 22, 1/2, 1⟩
  | CannabinoidProfile.lowThc => ⟨8, 15, 1/4, 3/4⟩
  | CannabinoidProfile.hemp => ⟨1/10, 3/10, 1/20, 3/10⟩
  | CannabinoidProfile.decarbed => ⟨0, 1, 15, 25⟩
  | CannabinoidProfile.disposableVape => ⟨70, 85, 2, 5⟩
  | CannabinoidProfile.concentrate => ⟨75, 90, 2, 6⟩
  | CannabinoidProfile.gummy => ⟨0, 1/10, 2, 5⟩

/-- Builds one generated analyte: mass-per-gram is percent-by-weight × 10
(spec section 3) and the tag comes from the Result Classifier. -/
def genCannabinoid (n : String) (pw lod loq : ℚ) : Cannabinoid :=
  { name := n, percentWeight := pw, mgPerG := pw * 10
    lod := lod, loq := loq, result := classifyResult pw lod loq }

/-- Modelled from the spec: the Measurement Generator (spec section 4.3).
Draws the two primary analytes from the selected range (custom override
first), derives minor analytes by fixed ratios, classifies every analyte,
and computes the totals through the aggregator.  The per-analyte LOD/LOQ
reference values are fixed at 0.01 / 0.05. -/
def generateCannabinoidProfile (profile : CannabinoidProfile)
    (custom : Option CustomRanges) (productType : ProductType)
    (seed : Nat) : CannabinoidProfileResult :=
  let ranges := custom.getD (profileRanges profile)
  let draw1 := randInRange seed ranges.thcaMin ranges.thcaMax
  let thca := draw1.1
  let draw2 := randInRange draw1.2 ranges.d9thcMin ranges.d9thcMax
  let d9thc := draw2.1
  let mult : ℚ :=
    match productType with
    | ProductType.edible => 1
    | ProductType.beverage => 1
    | ProductType.gummy => 1
    | _ => 1
  let cannabinoids :=
    [ genCannabinoid "THCA" (thca * mult) (1/100) (5/100)
    , genCannabinoid "D9-THC" (d9thc * mult) (1/100) (5/100)
    , genCannabinoid "CBGA" (thca * mult * (4/100)) (1/100) (5/100)
    , genCannabinoid "CBG" (d9thc * mult * (6/100)) (1/100) (5/100)
    , genCannabinoid "CBDA" (thca * mult * (1/200)) (1/100) (5/100)
    , genCannabinoid "CBD" (d9thc * mult * (1/100)) (1/100) (5/100) ]
  aggregate cannabinoids

/-- Embedded from the source union of check types on ValidationError. -/
inductive CheckType where
  | cannabinoidFormula
  | logicConsistency
  | dataUniqueness
deriving DecidableEq, Repr

/-- Embedded from the source union of severities on ValidationError. -/
inductive Severity where
  | error
  | warning
deriving DecidableEq, Repr

/-- Embedded from the source interface ValidationError: one finding. -/
structure ValidationError where
  type : CheckType
  severity : Severity
  message : String
  field : Option String
  expectedValue : Option ℚ
  actualValue : Option ℚ
deriving DecidableEq, Repr

/-- Embedded from the source interface CannabinoidFormulaCheck. -/
structure CannabinoidFormulaCheck where
  totalTHCCalculated : ℚ
  totalTHCReported : ℚ
  totalCBDCalculated : ℚ
  totalCBDReported : ℚ
  sumOfCannabinoidsCalculated : ℚ
  sumOfCannabinoidsReported : ℚ
  thcMismatch : ℚ
  cbdMismatch : ℚ
  sumMismatch : ℚ
deriving DecidableEq, Repr

/-- Embedded from the source interface LogicConsistencyCheck (the field
name totalCannabiniodsGteTotalTHC carries the spelling of the source). -/
structure LogicConsistencyCheck where
  ndOrLowQPresent : Bool
  totalCannabiniodsGteTotalTHC : Bool
  cbdSliceExists : Bool
  moistureInRange : Bool
  delta8THCFlagged : Bool
deriving DecidableEq, Repr

/-- Embedded from the source interface DataUniquenessCheck. -/
structure DataUniquenessCheck where
  duplicateCannabinoidsFound : Bool
  duplicateMoistureFound : Bool
  duplicateBatchIdFound : Bool
  duplicateSampleIdFound : Bool
  previousCOAData : Option (List COAData)
deriving DecidableEq, Repr

/-- Embedded from the source interface ComprehensiveValidationResult
(ValidationResult flattened in, as the source extends it). -/
structure ComprehensiveValidationResult where
  isValid : Bool
  errors : List ValidationError
  warnings : List ValidationError
  cannabinoidFormulaCheck : CannabinoidFormulaCheck
  logicConsistencyCheck : LogicConsistencyCheck
  dataUniquenessCheck : DataUniquenessCheck
deriving DecidableEq, Repr

/-- Modelled from the spec: the tight formula-consistency tolerance below
which a mismatch is not reported (spec section 4.4a leaves the exact value
open; this model fixes 0.01). -/
def FORMULA_TOLERANCE : ℚ := 1 / 100

/-- Modelled from the spec: the larger threshold above which a formula
mismatch is severity-error rather than severity-warning (spec section
4.4a; fixed at 0.1 in this model). -/
def FORMULA_ERROR_THRESHOLD : ℚ := 1 / 10

/-- Modelled from the spec: the finding (possibly none) for one recomputed
total compared with the reported total (spec section 4.4a). -/
def mkFormulaFinding (fieldName : String) (computed reported : ℚ) :
    List ValidationError :=
  if |computed - reported| ≤ FORMULA_TOLERANCE then []
  else
    [{ type := CheckType.cannabinoidFormula
       severity :=
         if FORMULA_ERROR_THRESHOLD < |computed - reported| then Severity.error
         else Severity.warning
       message := "Reported total deviates from the recomputed value"
       field := some fieldName
       expectedValue := some computed
       actualValue := some reported }]

/-- Modelled from the spec: the formula-consistency sub-result record. -/
def mkFormulaCheck (coa : COAData) : CannabinoidFormulaCheck :=
  { totalTHCCalculated := calcTotalTHC coa.cannabinoids
    totalTHCReported := coa.totalTHC
    totalCBDCalculated := calcTotalCBD coa.cannabinoids
    totalCBDReported := coa.totalCBD
    sumOfCannabinoidsCalculated := calcTotalCannabinoids coa.cannabinoids
    sumOfCannabinoidsReported := coa.totalCannabinoids
    thcMismatch := |calcTotalTHC coa.cannabinoids - coa.totalTHC|
    cbdMismatch := |calcTotalCBD coa.cannabinoids - coa.totalCBD|
    sumMismatch := |calcTotalCannabinoids coa.cannabinoids - coa.totalCannabinoids| }

/-- Modelled from the spec: the findings of the formula-consistency check
(spec section 4.4a). -/
def formulaFindings (coa : COAData) : List ValidationError :=
  mkFormulaFinding "totalTHC" (calcTotalTHC coa.cannabinoids) coa.totalTHC
    ++ mkFormulaFinding "totalCBD" (calcTotalCBD coa.cannabinoids) coa.totalCBD
    ++ mkFormulaFinding "totalCannabinoids"
        (calcTotalCannabinoids coa.cannabinoids) coa.totalCannabinoids

/-- Modelled from the spec: the logic-consistency sub-result record (spec
section 4.4b); moisture range fixed at 5 to 15 percent. -/
def mkLogicCheck (coa : COAData) : LogicConsistencyCheck :=
  { ndOrLowQPresent := coa.cannabinoids.any fun c =>
      decide (c.result = CannabinoidResult.ND ∨
        c.result = CannabinoidResult.belowLOQ)
    totalCannabiniodsGteTotalTHC := decide (coa.totalTHC ≤ coa.totalCannabinoids)
    cbdSliceExists := coa.cannabinoids.any fun c =>
      decide (c.name = "CBD" ∨ c.name = "CBDA")
    moistureInRange :=
      match coa.moisture with
      | some m => decide (5 ≤ m ∧ m ≤ 15)
      | none => true
    delta8THCFlagged := coa.cannabinoids.any fun c =>
      decide (c.name = "Delta-8 THC") }

/-- Modelled from the spec: the findings of the logic-consistency check
(spec section 4.4b).  The violated total ordering is an error; moisture
out of range and Delta-8 presence are warnings; the two informational
flags produce no finding. -/
def logicFindings (coa : COAData) : List ValidationError :=
  let ck := mkLogicCheck coa
  (if ck.totalCannabiniodsGteTotalTHC then []
   else
     [{ type := CheckType.logicConsistency, severity := Severity.error
        message := "Total of all analytes is below total THC"
        field := some "totalCannabinoids"
        expectedValue := some coa.totalTHC
        actualValue := some coa.totalCannabinoids }])
    ++ (if ck.moistureInRange then []
        else
          [{ type := CheckType.logicConsistency, severity := Severity.warning
             message := "Moisture is outside the accepted range"
             field := some "moisture"
             expectedValue := none, actualValue := coa.moisture }])
    ++ (if ck.delta8THCFlagged then
          [{ type := CheckType.logicConsistency, severity := Severity.warning
             message := "Delta-8 THC present and excluded from total THC"
             field := some "cannabinoids"
             expectedValue := none, actualValue := none }]
        else [])

/-- Modelled from the spec: the data-uniqueness sub-result record (spec
section 4.4c).  The supplied history is retained read-only. -/
def mkUniquenessCheck (coa : COAData) (previous : List COAData) :
    DataUniquenessCheck :=
  { duplicateCannabinoidsFound := previous.any fun p =>
      decide (p.cannabinoids = coa.cannabinoids ∧ p.sampleId ≠ coa.sampleId)
    duplicateMoistureFound := previous.any fun p =>
      decide (p.moisture = coa.moisture ∧ coa.moisture ≠ none ∧
        p.sampleId ≠ coa.sampleId)
    duplicateBatchIdFound := previous.any fun p =>
      decide (p.batchId = coa.batchId ∧ p.sampleId ≠ coa.sampleId)
    duplicateSampleIdFound := previous.any fun p =>
      decide (p.sampleId = coa.sampleId)
    previousCOAData := some previous }

/-- Modelled from the spec: the findings of the data-uniqueness check
(spec section 4.4c).  The duplicated sample identifier is the only
error-severity uniqueness finding; the other three are warnings. -/
def uniquenessFindings (coa : COAData) (previous : List COAData) :
    List ValidationError :=
  let ck := mkUniquenessCheck coa previous
  (if ck.duplicateCannabinoidsFound then
     [{ type := CheckType.dataUniqueness, severity := Severity.warning
        message := "Identical analyte values found on another sample"
        field := some "cannabinoids"
        expectedValue := none, actualValue := none }]
   else [])
    ++ (if ck.duplicateMoistureFound then
          [{ type := CheckType.dataUniqueness, severity := Severity.warning
             message := "Identical moisture value found on another sample"
             field := some "moisture"
             expectedValue := none, actualValue := coa.moisture }]
        else [])
    ++ (if ck.duplicateBatchIdFound then
          [{ type := CheckType.dataUniqueness, severity := Severity.warning
             message := "Batch identifier reused across samples"
             field := some "batchId"
             expectedValue := none, actualValue := none }]
        else [])
    ++ (if ck.duplicateSampleIdFound then
          [{ type := CheckType.dataUniqueness, severity := Severity.error
             message := "Sample identifier reused"
             field := some "sampleId"
             expectedValue := none, actualValue := none }]
        else [])

/-- Modelled from the spec: the merged ordered findings of the three
checks (spec section 4.4, verdict assembly). -/
def allFindings (coa : COAData) (previous : List COAData) :
    List ValidationError :=
  formulaFindings coa ++ logicFindings coa ++ uniquenessFindings coa previous

/-- Modelled from the spec: the Validation Engine (spec section 4.4).
Runs the three checks, splits the merged findings into the flat error and
warning lists, sets the overall flag to the absence of error findings, and
retains the three sub-check results. -/
def validateCOAData (coa : COAData) (previous : List COAData) :
    ComprehensiveValidationResult :=
  let all := allFindings coa previous
  let errs := all.filter fun e => decide (e.severity = Severity.error)
  let warns := all.filter fun e => decide (e.severity = Severity.warning)
  { isValid := errs.isEmpty
    errors := errs
    warnings := warns
    cannabinoidFormulaCheck := mkFormulaCheck coa
    logicConsistencyCheck := mkLogicCheck coa
    dataUniquenessCheck := mkUniquenessCheck coa previous }

/-- Modelled from the spec: one call of the Validation Engine viewed as a
state transformer over its inputs.  The engine is a pure function of
(report, history) (spec section 5), so the call returns the verdict
together with the post-call report and history values. -/
def validateCall (coa : COAData) (previous : List COAData) :
    ComprehensiveValidationResult × COAData × List COAData :=
  (validateCOAData coa previous, coa, previous)

/-- Embedded from the source interface COAFile on the Live COAs page
(the fields the filtering and selection logic reads). -/
structure COAFile where
  id : String
  name : String
  created_at : String
  updated_at : String
  size : Option ℕ
  viewerUrl : String
  clientFolder : Option String
  storeId : Option String
  strainName : Option String
deriving DecidableEq, Repr

/-- JavaScript toLowerCase over the character sequence of a string. -/
def jsToLower (s : String) : String := String.mk (s.data.map Char.toLower)

/-- Substring containment on character lists: the semantics of the
JavaScript String includes method. -/
def listIncludes (sub : List Char) : List Char → Bool
  | [] => decide (sub = [])
  | c :: t => List.isPrefixOf sub (c :: t) || listIncludes sub t

/-- JavaScript s.includes(sub). -/
def jsIncludes (s sub : String) : Bool := listIncludes sub.data s.data

/-- Embedded from the source matchesSearch predicate of filteredCOAs:
the name, strain name, or client folder contains the search term
case-insensitively (an absent optional field matches nothing). -/
def matchesSearch (coa : COAFile) (searchTerm : String) : Bool :=
  jsIncludes (jsToLower coa.name) (jsToLower searchTerm)
    || (match coa.strainName with
        | some s => jsIncludes (jsToLower s) (jsToLower searchTerm)
        | none => false)
    || (match coa.clientFolder with
        | some s => jsIncludes (jsToLower s) (jsToLower searchTerm)
        | none => false)

/-- Embedded from the source matchesClient predicate of filteredCOAs:
the selected client is the sentinel all or equals the client folder. -/
def matchesClient (coa : COAFile) (selectedClient : String) : Bool :=
  selectedClient == "all"
    || (match coa.clientFolder with
        | some s => s == selectedClient
        | none => false)

/-- Embedded from the source filteredCOAs computation on the Live COAs
page: the files passing both the search filter and the client filter, in
the original order. -/
def filteredCOAs (coaFiles : List COAFile) (searchTerm selectedClient : String) :
    List COAFile :=
  coaFiles.filter fun coa =>
    matchesSearch coa searchTerm && matchesClient coa selectedClient

/-- Embedded from the source handleSelectCOA on the Live COAs page: copy
the previous selection set, then delete the identifier if present and add
it otherwise. -/
def handleSelectCOA (prev : Finset String) (coaId : String) : Finset String :=
  if coaId ∈ prev then prev.erase coaId else insert coaId prev

/-- Model of a @supabase/supabase-js client value, carrying the
configuration the source passes to createClient. -/
structure SupabaseClient where
  url : String
  key : String
  persistSession : Bool
  autoRefreshToken : Bool
  detectSessionInUrl : Bool
  storageKey : String
  customHeader : Option String
deriving DecidableEq, Repr

/-- The environment supplying the NEXT_PUBLIC_SUPABASE variables; absent
variables fall back to the empty string as in the source getters. -/
def envOr (env : String → Option String) (k : String) : String :=
  (env k).getD ""

/-- Embedded from the source getAuthUrl. -/
def getAuthUrl (env : String → Option String) : String :=
  envOr env "NEXT_PUBLIC_SUPABASE_AUTH_URL"

/-- Embedded from the source getAuthKey. -/
def getAuthKey (env : String → Option String) : String :=
  envOr env "NEXT_PUBLIC_SUPABASE_AUTH_ANON_KEY"

/-- Embedded from the source getDataUrl. -/
def getDataUrl (env : String → Option String) : String :=
  envOr env "NEXT_PUBLIC_SUPABASE_DATA_URL"

/-- Embedded from the source getDataKey. -/
def getDataKey (env : String → Option String) : String :=
  envOr env "NEXT_PUBLIC_SUPABASE_DATA_ANON_KEY"

/-- Embedded from the source getVendorUrl. -/
def getVendorUrl (env : String → Option String) : String :=
  envOr env "NEXT_PUBLIC_SUPABASE_VENDOR_URL"

/-- Embedded from the source getVendorKey. -/
def getVendorKey (env : String → Option String) : String :=
  envOr env "NEXT_PUBLIC_SUPABASE_VENDOR_ANON_KEY"

/-- The module-level singleton variables of the Supabase client module:
authClientInstance, dataClientInstance and vendorClientInstance, each
null until the first call of its getter. -/
structure ClientState where
  authClientInstance : Option SupabaseClient
  dataClientInstance : Option SupabaseClient
  vendorClientInstance : Option SupabaseClient
deriving DecidableEq, Repr

/-- Embedded from the source getSupabaseAuth, as a transformer of the
module state.  The third component records whether createClient ran on
this call. -/
def getSupabaseAuth (env : String → Option String) (s : ClientState) :
    SupabaseClient × ClientState × Bool :=
  match s.authClientInstance with
  | some c => (c, s, false)
  | none =>
    let c : SupabaseClient :=
      { url := getAuthUrl env, key := getAuthKey env
        persistSession := true, autoRefreshToken := true
        detectSessionInUrl := true
        storageKey := "whaletools-auth-tkicdgegwqmiybpnrazs"
        customHeader := none }
    (c, { s with authClientInstance := some c }, true)

/-- Embedded from the source getSupabaseData, as a transformer of the
module state. -/
def getSupabaseData (env : String → Option String) (s : ClientState) :
    SupabaseClient × ClientState × Bool :=
  match s.dataClientInstance with
  | some c => (c, s, false)
  | none =>
    let c : SupabaseClient :=
      { url := getDataUrl env, key := getDataKey env
        persistSession := false, autoRefreshToken := false
        detectSessionInUrl := false
        storageKey := "whaletools-data-elhsobjvwmjfminxxcwy"
        customHeader := some "whaletools-coa-generator" }
    (c, { s with dataClientInstance := some c }, true)

/-- Embedded from the source getSupabaseVendor, as a transformer of the
module state. -/
def getSupabaseVendor (env : String → Option String) (s : ClientState) :
    SupabaseClient × ClientState × Bool :=
  match s.vendorClientInstance with
  | some c => (c, s, false)
  | none =>
    let c : SupabaseClient :=
      { url := getVendorUrl env, key := getVendorKey env
        persistSession := false, autoRefreshToken := false
        detectSessionInUrl := false
        storageKey := "whaletools-vendor-uaednwpxursknmwdeejn"
        customHeader := some "whaletools-vendor-integration" }
    (c, { s with vendorClientInstance := some c }, true)

/-- A concrete internally consistent report used to instantiate theorems:
its stated totals equal the aggregator recomputation on its analyte list. -/
def sampleCannabinoids : List Cannabinoid :=
  [ { name := "THCA", percentWeight := 20, mgPerG := 200, loq := 5/100,
      lod := 1/100, result := CannabinoidResult.detected }
  , { name := "D9-THC", percentWeight := 1, mgPerG := 10, loq := 5/100,
      lod := 1/100, result := CannabinoidResult.detected } ]

/-- A concrete report with consistent reported totals. -/
def sampleCOA : COAData :=
  { labName := "Quantix Analytics", labContact := "contact"
    labDirector := "Director", directorTitle := "Lab Director"
    approvalDate := "2024-01-01", sampleName := "Sample"
    sampleId := "S-001", strain := "Blue Dream", batchId := "B-001"
    sampleSize := "3.5g", sampleType := "Flower", methodReference := "HPLC"
    clientName := "Client", clientAddress := none, licenseNumber := none
    storeId := none, dateCollected := "2024-01-01"
    dateReceived := "2024-01-02", dateTested := "2024-01-03"
    dateTestedEnd := none, dateReported := "2024-01-04"
    testsBatch := true, testsCannabinoids := true, testsMoisture := true
    testsHeavyMetals := false, testsPesticides := false
    testsMicrobials := false
    cannabinoids := sampleCannabinoids
    totalTHC := 927/50, totalCBD := 0, totalCannabinoids := 21
    edibleDosage := none, edibleWeight := none, moisture := some 12
    notes := "", qrCodeDataUrl := none, publicUrl := none
    includeImage := none, productImageUrl := none, vendorId := none }

/-- A second report sharing the sample identifier of sampleCOA but
differing in other fields. -/
def sampleCOA2 : COAData :=
  { sampleCOA with
    batchId := "B-002"
    strain := "OG Kush"
    totalCannabinoids := 22 }

/-- A report whose stated total of all analytes is below its stated
total THC. -/
def badTotalsCOA : COAData :=
  { sampleCOA with totalTHC := 30, totalCannabinoids := 20 }

/-- Every severity is error or warning. -/
theorem severity_cases (sev : Severity) :
    sev = Severity.error ∨ sev = Severity.warning := by
  cases sev
  · exact Or.inl rfl
  · exact Or.inr rfl

/-- C1: for every analyte list, the aggregator-computed total THC equals
the D9-THC quantity plus 0.877 times the THCA quantity, within 1e-4
absolute tolerance (spec sections 4.2 and 8; the aggregator is modelled
from the spec, and the identity holds exactly, hence within tolerance). -/
theorem aggregate_totalTHC_formula (cs : List Cannabinoid) :
    |(aggregate cs).totalTHC -
        (quantityOf cs "D9-THC" + (877/1000) * quantityOf cs "THCA")| ≤
      1/10000 := by
  simp only [aggregate, calcTotalTHC, DECARB_FACTOR, sub_self, abs_zero]
  norm_num

/-- C2: with LOD ≤ LOQ the classifier realises exactly the three-way rule
(quantity below LOD gives not-detected, between the limits gives
below-quantitation, at or above LOQ gives detected), and on the concrete
boundary inputs of the spec it yields ND, below-quantitation and detected
respectively. -/
theorem classifyResult_spec (q lod loq : ℚ) (h : lod ≤ loq) :
    (q < lod → classifyResult q lod loq = CannabinoidResult.ND)
  ∧ (lod ≤ q → q < loq → classifyResult q lod loq = CannabinoidResult.belowLOQ)
  ∧ (loq ≤ q → classifyResult q lod loq = CannabinoidResult.detected)
  ∧ classifyResult (5/1000) (1/100) (5/100) = CannabinoidResult.ND
  ∧ classifyResult (3/100) (1/100) (5/100) = CannabinoidResult.belowLOQ
  ∧ classifyResult (1/10) (1/100) (5/100) = CannabinoidResult.detected := by
  refine ⟨?_, ?_, ?_, ?_, ?_, ?_⟩
  · intro hq
    simp [classifyResult, hq]
  · intro h1 h2
    simp [classifyResult, not_lt.mpr h1, h2]
  · intro h1
    have h2 : ¬ q < lod := not_lt.mpr (le_trans h h1)
    have h3 : ¬ q < loq := not_lt.mpr h1
    simp [classifyResult, h2, h3]
  · norm_num [classifyResult]
  · norm_num [classifyResult]
  · norm_num [classifyResult]

/-- Witness for C2 at the spec boundary input 0.03 with LOD 0.01 and
LOQ 0.05. -/
theorem classifyResult_spec_witness :
    (1:ℚ)/100 ≤ 5/100 ∧
    classifyResult (3/100) (1/100) (5/100) = CannabinoidResult.belowLOQ :=
  ⟨by norm_num,
   (classifyResult_spec (3/100) (1/100) (5/100) (by norm_num)).2.1
     (by norm_num) (by norm_num)⟩

/-- C6: the Measurement Generator is deterministic: two runs on identical
profile, custom range, product type and seed yield identical results, the
analyte list in identical order and derived totals included (spec
sections 4.3 and 5; generator modelled from the spec as a pure function
of an explicit seed). -/
theorem generateCannabinoidProfile_deterministic
    (profile : CannabinoidProfile) (custom : Option CustomRanges)
    (productType : ProductType) (s1 s2 : Nat) (h : s1 = s2) :
    generateCannabinoidProfile profile custom productType s1 =
      generateCannabinoidProfile profile custom productType s2 := by
  rw [h]

/-- Witness for C6 at a concrete run. -/
theorem generateCannabinoidProfile_deterministic_witness :
    generateCannabinoidProfile CannabinoidProfile.highThc none
        ProductType.flower 42 =
      generateCannabinoidProfile CannabinoidProfile.highThc none
        ProductType.flower 42 :=
  generateCannabinoidProfile_deterministic CannabinoidProfile.highThc none
    ProductType.flower 42 42 rfl

/-- C7: a Validation Engine call leaves the report and the supplied
history unchanged; the verdict is a function of the two inputs only (spec
section 5; the engine is modelled from the spec as a pure function, and
the call viewed as a state transformer returns its inputs intact). -/
theorem validateCall_frame (coa : COAData) (previous : List COAData) :
    (validateCall coa previous).2.1 = coa ∧
    (validateCall coa previous).2.2 = previous ∧
    (validateCall coa previous).1 = validateCOAData coa previous :=
  ⟨rfl, rfl, rfl⟩

/-- C8: the selection toggle removes a present identifier and inserts an
absent one, and toggling twice restores the original selection set. -/
theorem handleSelectCOA_toggle (S : Finset String) (x : String) :
    (x ∈ S → handleSelectCOA S x = S \ {x})
  ∧ (x ∉ S → handleSelectCOA S x = S ∪ {x})
  ∧ handleSelectCOA (handleSelectCOA S x) x = S := by
  refine ⟨?_, ?_, ?_⟩
  · intro hx
    simp [handleSelectCOA, hx, Finset.erase_eq]
  · intro hx
    simp only [handleSelectCOA, hx, if_neg hx]
    rw [Finset.union_comm]
    exact Finset.insert_eq x S
  · by_cases hx : x ∈ S
    · have h1 : handleSelectCOA S x = S.erase x := by
        simp [handleSelectCOA, hx]
      rw [h1]
      have h2 : x ∉ S.erase x := Finset.not_mem_erase x S
      simp [handleSelectCOA, h2, Finset.insert_erase hx]
    · have h1 : handleSelectCOA S x = insert x S := by
        simp [handleSelectCOA, hx]
      rw [h1]
      have h2 : x ∈ insert x S := Finset.mem_insert_self x S
      simp [handleSelectCOA, h2, Finset.erase_insert hx]

/-- Witness for C8 on the singleton selection set. -/
theorem handleSelectCOA_toggle_witness :
    handleSelectCOA {"a"} "a" = ({"a"} : Finset String) \ {"a"} ∧
    handleSelectCOA (handleSelectCOA {"a"} "a") "a" = {"a"} :=
  ⟨(handleSelectCOA_toggle {"a"} "a").1 (by simp),
   (handleSelectCOA_toggle {"a"} "a").2.2⟩

/-- The empty character sequence is contained in every sequence, as for
the JavaScript includes method. -/
theorem listIncludes_nil (l : List Char) : listIncludes [] l = true := by
  cases l with
  | nil => rfl
  | cons c t => rfl

/-- An empty search term matches every file. -/
theorem matchesSearch_empty (coa : COAFile) : matchesSearch coa "" = true := by
  have h : jsIncludes (jsToLower coa.name) (jsToLower "") = true :=
    listIncludes_nil (jsToLower coa.name).data
  simp [matchesSearch, h]

/-- The sentinel client value matches every file. -/
theorem matchesClient_all (coa : COAFile) : matchesClient coa "all" = true := by
  simp [matchesClient]

/-- C9: every element of filteredCOAs passes both the case-insensitive
search filter and the client filter, and with the empty search term and
the sentinel client the filtered list is the full file list in the same
order. -/
theorem filteredCOAs_spec (files : List COAFile) (term client : String) :
    (∀ coa ∈ filteredCOAs files term client,
        matchesSearch coa term = true ∧ matchesClient coa client = true)
  ∧ filteredCOAs files "" "all" = files := by
  constructor
  · intro coa hmem
    have h := List.mem_filter.mp hmem
    have h2 := h.2
    simp only [Bool.and_eq_true] at h2
    exact h2
  · rw [show filteredCOAs files "" "all" =
        files.filter (fun coa => matchesSearch coa "" && matchesClient coa "all")
      from rfl]
    rw [List.filter_eq_self]
    intro coa _
    simp [matchesSearch_empty coa, matchesClient_all coa]

/-- A concrete stored file used to instantiate the filter theorem. -/
def sampleFile : COAFile :=
  { id := "id1", name := "Blue_Dream.pdf", created_at := "2024-01-01"
    updated_at := "2024-01-01", size := some 1000
    viewerUrl := "https://www.quantixanalytics.com/coa/s/Blue_Dream"
    clientFolder := some "StoreA", storeId := some "s"
    strainName := some "Blue Dream" }

/-- Witness for C9 on a one-element file list with a matching search. -/
theorem filteredCOAs_spec_witness :
    matchesSearch sampleFile "blue" = true ∧
    matchesClient sampleFile "all" = true :=
  (filteredCOAs_spec [sampleFile] "blue" "all").1 sampleFile (by decide)

/-- C3: the verdict passes exactly when no severity-error finding exists
across the three checks, and a finding lies in the flat error or warning
lists exactly when it lies in the merged per-check findings (spec section
4.4, verdict assembly; engine modelled from the spec). -/
theorem validateCOAData_verdict (coa : COAData) (previous : List COAData) :
    ((validateCOAData coa previous).isValid = true ↔
      ∀ e ∈ allFindings coa previous, e.severity ≠ Severity.error)
  ∧ (∀ e, (e ∈ (validateCOAData coa previous).errors ∨
            e ∈ (validateCOAData coa previous).warnings) ↔
          e ∈ allFindings coa previous) := by
  constructor
  · simp only [validateCOAData]
    rw [List.isEmpty_iff, List.filter_eq_nil_iff]
    constructor
    · intro h e he
      have h2 := h e he
      simpa using h2
    · intro h e he
      simpa using h e he
  · intro e
    simp only [validateCOAData]
    constructor
    · intro h
      rcases h with h | h
      · exact List.mem_of_mem_filter h
      · exact List.mem_of_mem_filter h
    · intro h
      rcases severity_cases e.severity with hs | hs
      · exact Or.inl (List.mem_filter.mpr ⟨h, by simp [hs]⟩)
      · exact Or.inr (List.mem_filter.mpr ⟨h, by simp [hs]⟩)

/-- Witness for C3: the consistent sample report with empty history
passes validation. -/
theorem validateCOAData_verdict_witness :
    (validateCOAData sampleCOA []).isValid = true := by
  have hq1 : quantityOf sampleCannabinoids "D9-THC" = 1 := rfl
  have hq2 : quantityOf sampleCannabinoids "THCA" = 20 := rfl
  have hq3 : quantityOf sampleCannabinoids "CBD" = 0 := rfl
  have hq4 : quantityOf sampleCannabinoids "CBDA" = 0 := rfl
  have hc : sampleCOA.cannabinoids = sampleCannabinoids := rfl
  have ht : sampleCOA.totalTHC = 927/50 := rfl
  have ht2 : sampleCOA.totalCBD = 0 := rfl
  have ht3 : sampleCOA.totalCannabinoids = 21 := rfl
  have hm : sampleCOA.moisture = some 12 := rfl
  have hthc : calcTotalTHC sampleCannabinoids = 927/50 := by
    simp only [calcTotalTHC, hq1, hq2, DECARB_FACTOR]
    norm_num
  have hcbd : calcTotalCBD sampleCannabinoids = 0 := by
    simp only [calcTotalCBD, hq3, hq4, DECARB_FACTOR]
    norm_num
  have hsum : calcTotalCannabinoids sampleCannabinoids = 21 := by
    norm_num [calcTotalCannabinoids, sampleCannabinoids, contribution]
  have hne1 : ¬ ("THCA" = "Delta-8 THC") := by decide
  have hne2 : ¬ ("D9-THC" = "Delta-8 THC") := by decide
  have hall : allFindings sampleCOA [] = [] := by
    simp only [allFindings, formulaFindings, logicFindings, uniquenessFindings,
      mkLogicCheck, mkUniquenessCheck, hc, ht, ht2, ht3, hm, hthc, hcbd, hsum]
    norm_num [mkFormulaFinding, FORMULA_TOLERANCE, sampleCannabinoids,
      hne1, hne2]
  exact (validateCOAData_verdict sampleCOA []).1.mpr (by
    rw [hall]
    simp)

/-- The error finding the uniqueness check emits for a reused sample
identifier. -/
def dupSampleIdError : ValidationError :=
  { type := CheckType.dataUniqueness, severity := Severity.error
    message := "Sample identifier reused", field := some "sampleId"
    expectedValue := none, actualValue := none }

/-- C4: a history entry sharing the report's sample identifier always
yields an error-severity data-uniqueness finding, whatever the other
fields, and among the uniqueness findings the duplicated sample
identifier is the only error-severity one (spec section 4.4c; uniqueness
check modelled from the spec). -/
theorem duplicate_sampleId_error (coa : COAData) (previous : List COAData)
    (h : ∃ p ∈ previous, p.sampleId = coa.sampleId) :
    (∃ e ∈ (validateCOAData coa previous).errors,
        e.type = CheckType.dataUniqueness ∧ e.severity = Severity.error ∧
        e.field = some "sampleId")
  ∧ (∀ e ∈ uniquenessFindings coa previous,
        e.severity = Severity.error → e.field = some "sampleId") := by
  have hany : (previous.any fun p => decide (p.sampleId = coa.sampleId)) = true := by
    rcases h with ⟨p, hp, hpe⟩
    exact List.any_eq_true.mpr ⟨p, hp, by simpa using hpe⟩
  constructor
  · have hU : dupSampleIdError ∈ uniquenessFindings coa previous := by
      simp only [uniquenessFindings, mkUniquenessCheck, hany, if_true]
      simp [dupSampleIdError, List.mem_append]
    have hA : dupSampleIdError ∈ allFindings coa previous :=
      List.mem_append_right _ hU
    refine ⟨dupSampleIdError, ?_, rfl, rfl, rfl⟩
    simp only [validateCOAData]
    exact List.mem_filter.mpr ⟨hA, by simp [dupSampleIdError]⟩
  · intro e he herr
    simp only [uniquenessFindings, mkUniquenessCheck, List.mem_append] at he
    rcases he with ((h1 | h2) | h3) | h4
    · rcases List.mem_ite_nil_right.mp h1 with ⟨-, hmem⟩
      rw [List.mem_singleton] at hmem
      rw [hmem] at herr
      exact absurd herr (by simp)
    · rcases List.mem_ite_nil_right.mp h2 with ⟨-, hmem⟩
      rw [List.mem_singleton] at hmem
      rw [hmem] at herr
      exact absurd herr (by simp)
    · rcases List.mem_ite_nil_right.mp h3 with ⟨-, hmem⟩
      rw [List.mem_singleton] at hmem
      rw [hmem] at herr
      exact absurd herr (by simp)
    · rcases List.mem_ite_nil_right.mp h4 with ⟨-, hmem⟩
      rw [List.mem_singleton] at hmem
      rw [hmem]

/-- Witness for C4: a history entry repeats the sample identifier of the
report while differing in batch identifier, strain and totals. -/
theorem duplicate_sampleId_error_witness :
    ∃ e ∈ (validateCOAData sampleCOA [sampleCOA2]).errors,
        e.type = CheckType.dataUniqueness ∧ e.severity = Severity.error ∧
        e.field = some "sampleId" :=
  (duplicate_sampleId_error sampleCOA [sampleCOA2]
    ⟨sampleCOA2, by simp, rfl⟩).1

/-- The error finding the logic check emits when the total of all
analytes is below total THC. -/
def totalBelowTHCError (coa : COAData) : ValidationError :=
  { type := CheckType.logicConsistency, severity := Severity.error
    message := "Total of all analytes is below total THC"
    field := some "totalCannabinoids"
    expectedValue := some coa.totalTHC
    actualValue := some coa.totalCannabinoids }

/-- C5: a report whose stated total of all analytes is below its stated
total THC always yields an error-severity logic-consistency finding (spec
sections 4.4b and 8; logic check modelled from the spec). -/
theorem total_below_thc_error (coa : COAData) (previous : List COAData)
    (h : coa.totalCannabinoids < coa.totalTHC) :
    ∃ e ∈ (validateCOAData coa previous).errors,
      e.type = CheckType.logicConsistency ∧ e.severity = Severity.error := by
  have hb : decide (coa.totalTHC ≤ coa.totalCannabinoids) = false := by
    simp [not_le.mpr h]
  have hL : totalBelowTHCError coa ∈ logicFindings coa := by
    simp only [logicFindings, mkLogicCheck, hb, Bool.false_eq_true, if_false]
    simp [totalBelowTHCError, List.mem_append]
  have hA : totalBelowTHCError coa ∈ allFindings coa previous :=
    List.mem_append_left _ (List.mem_append_right _ hL)
  refine ⟨totalBelowTHCError coa, ?_, rfl, rfl⟩
  simp only [validateCOAData]
  exact List.mem_filter.mpr ⟨hA, by simp [totalBelowTHCError]⟩

/-- Witness for C5 on a report stating total THC 30 and total of all
analytes 20. -/
theorem total_below_thc_error_witness :
    ∃ e ∈ (validateCOAData badTotalsCOA []).errors,
      e.type = CheckType.logicConsistency ∧ e.severity = Severity.error :=
  total_below_thc_error badTotalsCOA [] (by norm_num [badTotalsCOA])

/-- C10: each Supabase getter is an idempotent lazy singleton: on an
empty slot the call creates the client and stores it, and on a filled
slot the call returns the stored instance unchanged without creating a
new one; in particular a call right after the first returns the instance
of the first call. -/
theorem supabase_getters_singleton (env : String → Option String)
    (s : ClientState) :
    ((∀ c, s.authClientInstance = some c →
        getSupabaseAuth env s = (c, s, false))
      ∧ (s.authClientInstance = none → (getSupabaseAuth env s).2.2 = true)
      ∧ (getSupabaseAuth env s).2.1.authClientInstance =
          some (getSupabaseAuth env s).1
      ∧ getSupabaseAuth env (getSupabaseAuth env s).2.1 =
          ((getSupabaseAuth env s).1, (getSupabaseAuth env s).2.1, false))
  ∧ ((∀ c, s.dataClientInstance = some c →
        getSupabaseData env s = (c, s, false))
      ∧ (s.dataClientInstance = none → (getSupabaseData env s).2.2 = true)
      ∧ (getSupabaseData env s).2.1.dataClientInstance =
          some (getSupabaseData env s).1
      ∧ getSupabaseData env (getSupabaseData env s).2.1 =
          ((getSupabaseData env s).1, (getSupabaseData env s).2.1, false))
  ∧ ((∀ c, s.vendorClientInstance = some c →
        getSupabaseVendor env s = (c, s, false))
      ∧ (s.vendorClientInstance = none → (getSupabaseVendor env s).2.2 = true)
      ∧ (getSupabaseVendor env s).2.1.vendorClientInstance =
          some (getSupabaseVendor env s).1
      ∧ getSupabaseVendor env (getSupabaseVendor env s).2.1 =
          ((getSupabaseVendor env s).1, (getSupabaseVendor env s).2.1, false)) := by
  refine ⟨?_, ?_, ?_⟩
  · cases hs : s.authClientInstance with
    | some c => simp [getSupabaseAuth, hs]
    | none => simp [getSupabaseAuth, hs]
  · cases hs : s.dataClientInstance with
    | some c => simp [getSupabaseData, hs]
    | none => simp [getSupabaseData, hs]
  · cases hs : s.vendorClientInstance with
    | some c => simp [getSupabaseVendor, hs]
    | none => simp [getSupabaseVendor, hs]

/-- Witness for C10: starting from the empty module state, the first auth
getter call creates its client. -/
theorem supabase_getters_singleton_witness :
    (getSupabaseAuth (fun _ => none) ⟨none, none, none⟩).2.2 = true :=
  ((supabase_getters_singleton (fun _ => none) ⟨none, none, none⟩).1).2.1 rfl
